import Mathlib

/-!
# Metamorph ingestion pipeline — formal model

A shallow embedding of the Metamorph repository's core pipeline
(`core/fetch_data.py`, `core/services.py`, `core/tasks.py`,
`core/views.py`) in Lean 4, together with proofs of the specification
claims about it.

Modelling conventions:
* JSON values are the inductive `Json`; Python dictionaries are
  association lists keyed by strings.  Numbers (Python int and float)
  are modelled by `ℚ` (the values occurring in the pipeline — source
  ids and `id * 10.0` — are exactly representable, so no floating-point
  rounding is lost).
* `str(uuid.uuid4())` is modelled by drawing successive values from a
  natural-number counter; collision freedom of uuid4 corresponds to
  distinct runs drawing from disjoint counter ranges.
* `django.utils.timezone.now()` is an opaque time value (a `Nat`)
  supplied by the caller.
* Operations that can raise a Python exception (`item["k"]` on a missing
  key, `float(x)` on a non-numeric value, iterating a non-sequence)
  return `Option`, with `none` for the raised exception.
* The Django ORM tables are Lean lists; `objects.create` appends a row,
  `objects.filter(...).exists()` is a decidable search.
-/

namespace Metamorph

/-- JSON values (the shapes flowing through the pipeline). -/
inductive Json where
  | null : Json
  | bool : Bool → Json
  | num : ℚ → Json
  | str : String → Json
  | arr : List Json → Json
  | obj : List (String × Json) → Json
deriving Repr

mutual

/-- Decidable equality on `Json` (written by hand: the nested inductive
defeats automatic derivation). -/
def Json.decEq : (a b : Json) → Decidable (a = b)
  | .null, .null => .isTrue rfl
  | .bool x, .bool y =>
    match instDecidableEqBool x y with
    | .isTrue h => .isTrue (by rw [h])
    | .isFalse h => .isFalse (fun hh => h (Json.bool.inj hh))
  | .num x, .num y =>
    match (inferInstance : DecidableEq ℚ) x y with
    | .isTrue h => .isTrue (by rw [h])
    | .isFalse h => .isFalse (fun hh => h (Json.num.inj hh))
  | .str x, .str y =>
    match instDecidableEqString x y with
    | .isTrue h => .isTrue (by rw [h])
    | .isFalse h => .isFalse (fun hh => h (Json.str.inj hh))
  | .arr xs, .arr ys =>
    match Json.decEqList xs ys with
    | .isTrue h => .isTrue (by rw [h])
    | .isFalse h => .isFalse (fun hh => h (Json.arr.inj hh))
  | .obj xs, .obj ys =>
    match Json.decEqKVs xs ys with
    | .isTrue h => .isTrue (by rw [h])
    | .isFalse h => .isFalse (fun hh => h (Json.obj.inj hh))
  | .null, .bool _ | .null, .num _ | .null, .str _ | .null, .arr _ | .null, .obj _
  | .bool _, .null | .bool _, .num _ | .bool _, .str _ | .bool _, .arr _ | .bool _, .obj _
  | .num _, .null | .num _, .bool _ | .num _, .str _ | .num _, .arr _ | .num _, .obj _
  | .str _, .null | .str _, .bool _ | .str _, .num _ | .str _, .arr _ | .str _, .obj _
  | .arr _, .null | .arr _, .bool _ | .arr _, .num _ | .arr _, .str _ | .arr _, .obj _
  | .obj _, .null | .obj _, .bool _ | .obj _, .num _ | .obj _, .str _ | .obj _, .arr _ =>
    .isFalse (by intro h; exact Json.noConfusion h)

/-- Decidable equality on lists of `Json`. -/
def Json.decEqList : (xs ys : List Json) → Decidable (xs = ys)
  | [], [] => .isTrue rfl
  | [], _ :: _ => .isFalse (fun h => List.noConfusion h)
  | _ :: _, [] => .isFalse (fun h => List.noConfusion h)
  | x :: xs, y :: ys =>
    match Json.decEq x y with
    | .isFalse h => .isFalse (fun hh => h (List.cons.inj hh).1)
    | .isTrue h1 =>
      match Json.decEqList xs ys with
      | .isTrue h2 => .isTrue (by rw [h1, h2])
      | .isFalse h => .isFalse (fun hh => h (List.cons.inj hh).2)

/-- Decidable equality on string-keyed association lists of `Json`. -/
def Json.decEqKVs : (xs ys : List (String × Json)) → Decidable (xs = ys)
  | [], [] => .isTrue rfl
  | [], _ :: _ => .isFalse (fun h => List.noConfusion h)
  | _ :: _, [] => .isFalse (fun h => List.noConfusion h)
  | (k, v) :: xs, (k', v') :: ys =>
    match instDecidableEqString k k' with
    | .isFalse h =>
      .isFalse (fun hh => h (congrArg Prod.fst (List.cons.inj hh).1))
    | .isTrue hk =>
      match Json.decEq v v' with
      | .isFalse h =>
        .isFalse (fun hh => h (congrArg Prod.snd (List.cons.inj hh).1))
      | .isTrue hv =>
        match Json.decEqKVs xs ys with
        | .isTrue h2 => .isTrue (by rw [hk, hv, h2])
        | .isFalse h => .isFalse (fun hh => h (List.cons.inj hh).2)

end

instance : DecidableEq Json := Json.decEq

/-! ## Python-semantics helpers -/

/-- Python truthiness of a JSON value (`if x:`). -/
def truthy : Json → Bool
  | .null => false
  | .bool b => b
  | .num q => q ≠ 0
  | .str s => s ≠ ""
  | .arr xs => ¬ xs.isEmpty
  | .obj kvs => ¬ kvs.isEmpty

/-- Lookup in a string-keyed association list (Python `dict` access). -/
def alookup : List (String × Json) → String → Option Json
  | [], _ => none
  | (k', v) :: rest, k => if k' = k then some v else alookup rest k

/-- Python `item[k]`: `none` models the raised `KeyError`/`TypeError`
when the key is missing or `item` is not a dict. -/
def getKey (item : Json) (k : String) : Option Json :=
  match item with
  | .obj kvs => alookup kvs k
  | _ => none

/-- View a JSON value as a dict; `none` models the `AttributeError`
raised by calling a dict method on a non-dict. -/
def asObj : Json → Option (List (String × Json))
  | .obj kvs => some kvs
  | _ => none

/-- View a JSON value as a sequence to iterate over.  The model iterates
JSON arrays; iterating any other shape is modelled as the failure the
subsequent per-item field accesses raise in Python. -/
def asArr : Json → Option (List Json)
  | .arr xs => some xs
  | _ => none

/-- Conversion of a digit list to a number (helper for `float()`). -/
def digitsVal : List Char → Option ℕ
  | [] => some 0
  | c :: cs => do
    let rest ← digitsVal cs
    if c.isDigit then some ((c.toNat - 48) * 10 ^ cs.length + rest) else none

/-- Python `float(s)` on a string: optional sign, decimal digits with an
optional fractional part (the formats the pipeline's ids can take; the
exotic forms — exponents, `inf`, `nan` — are outside the model). -/
def pyFloatString (s : String) : Option ℚ :=
  let cs := s.toList
  let signAndRest : Bool × List Char :=
    match cs with
    | '-' :: rest => (true, rest)
    | '+' :: rest => (false, rest)
    | _ => (false, cs)
  let ip := signAndRest.2.takeWhile (· ≠ '.')
  let rest := signAndRest.2.dropWhile (· ≠ '.')
  let frac : Option (List Char) :=
    match rest with
    | [] => some []
    | '.' :: fp => some fp
    | _ => none
  do
    let fp ← frac
    if ip.isEmpty ∧ fp.isEmpty then none
    else
      let iv ← digitsVal ip
      let fv ← digitsVal fp
      let mag : ℚ := (iv : ℚ) + (fv : ℚ) / (10 ^ fp.length : ℚ)
      pure (if signAndRest.1 then -mag else mag)

/-- Python `float(x)`: `none` models the raised `TypeError`/`ValueError`. -/
def pyFloat : Json → Option ℚ
  | .num q => some q
  | .bool b => some (if b then 1 else 0)
  | .str s => pyFloatString s
  | _ => none

/-- Python `str(x)` (enough of it for the f-string in the user mapping;
container reprs are abstracted). -/
def pyStr : Json → String
  | .null => "None"
  | .bool b => if b then "True" else "False"
  | .num q => toString q
  | .str s => s
  | .arr _ => "<list repr>"
  | .obj _ => "<dict repr>"

/-! ## Data model: `UnifiedEntity` rows (`core/models.py`)

`entity_id` holds `str(uuid.uuid4())`, modelled as a draw from a
natural-number counter; `timestamp` is the opaque `now()` instant. -/

structure URec where
  entity_id : ℕ
  entity_type : String
  timestamp : ℕ
  data : List (String × Json)
  metadata : List (String × Json)
deriving Repr, DecidableEq

/-! ## Normalizer: `transform_data` (`core/services.py` 18–90) -/

/-- The `api_name == "products"` per-item mapping: required subscripts
`id`, `title`, `price`, `category`, `description`, `image`. -/
def productRec (t eid : ℕ) (item : Json) : Option URec := do
  let idv ← getKey item "id"
  let title ← getKey item "title"
  let price ← getKey item "price"
  let category ← getKey item "category"
  let description ← getKey item "description"
  let image ← getKey item "image"
  pure { entity_id := eid, entity_type := "product", timestamp := t,
         data := [("external_id", idv), ("title", title), ("price", price),
                  ("category", category), ("description", description),
                  ("image_url", image)],
         metadata := [("source", .str "FakeStoreAPI"), ("processed_at", .num t)] }

/-- The `api_name == "users"` per-item mapping: required subscripts
`login.uuid`, `name.first`, `name.last`, `email`, `location.country`,
`registered.date`; `phone` via `.get` (optional). -/
def userRec (t eid : ℕ) (item : Json) : Option URec := do
  let login ← getKey item "login"
  let uuid ← getKey login "uuid"
  let nameObj ← getKey item "name"
  let first ← getKey nameObj "first"
  let last ← getKey nameObj "last"
  let email ← getKey item "email"
  let d ← asObj item
  let phone := (alookup d "phone").getD .null
  let location ← getKey item "location"
  let country ← getKey location "country"
  let registered ← getKey item "registered"
  let rdate ← getKey registered "date"
  pure { entity_id := eid, entity_type := "user", timestamp := t,
         data := [("external_id", uuid),
                  ("name", .str (pyStr first ++ " " ++ pyStr last)),
                  ("email", email), ("phone", phone), ("country", country),
                  ("registered_date", rdate)],
         metadata := [("source", .str "RandomUserAPI"), ("processed_at", .num t)] }

/-- The `api_name == "transactions"` per-item mapping: the amount is the
derived `float(item.get("id", 1)) * 10.0`; required subscripts `id`,
`status`, `eta`, `user_name`, `user_phone`; `parcel_id` via `.get`. -/
def transactionRec (t eid : ℕ) (item : Json) : Option URec := do
  let d ← asObj item
  let amt ← pyFloat ((alookup d "id").getD (.num 1))
  let idv ← getKey item "id"
  let status ← getKey item "status"
  let eta ← getKey item "eta"
  let user_name ← getKey item "user_name"
  let user_phone ← getKey item "user_phone"
  let parcel := (alookup d "parcel_id").getD .null
  pure { entity_id := eid, entity_type := "transaction", timestamp := t,
         data := [("external_id", idv), ("status", status), ("eta", eta),
                  ("user_name", user_name), ("user_phone", user_phone),
                  ("amount", .num (amt * 10)), ("parcel_id", parcel)],
         metadata := [("source", .str "MockarooAPI"), ("processed_at", .num t)] }

/-- The normalization loop: one record per item, each drawing the next
fresh `entity_id` from the counter; the first per-item failure aborts
the whole batch (the loop body's exception propagates). -/
def buildRecs (f : ℕ → Json → Option URec) : ℕ → List Json → Option (List URec)
  | _, [] => some []
  | s, x :: xs => do
    let r ← f s x
    let rest ← buildRecs f (s + 1) xs
    pure (r :: rest)

/-- `transform_data(api_name, raw_data)`: `s` is the uuid counter, `t`
the `now()` instant.  Unrecognized source names yield the empty list. -/
def transform_data (api_name : String) (raw : Json) (s t : ℕ) :
    Option (List URec) :=
  if api_name = "products" then do
    let items ← asArr raw
    buildRecs (productRec t) s items
  else if api_name = "users" then do
    let d ← asObj raw
    let items ← asArr ((alookup d "results").getD (.arr []))
    buildRecs (userRec t) s items
  else if api_name = "transactions" then do
    let items ← asArr raw
    buildRecs (transactionRec t) s items
  else some []

/-! ## Deduplicating store: `store_transformed_data` (`core/services.py` 92–102) -/

/-- `item["data"].get("external_id")`. -/
def extIdOf (r : URec) : Option Json := alookup r.data "external_id"

/-- `UnifiedEntity.objects.filter(data__external_id=ext_id).exists()`. -/
def hasExtId (db : List URec) (v : Json) : Bool :=
  db.any (fun r => decide (extIdOf r = some v))

/-- The loop body of `store_transformed_data`: skip when the external
identity is falsy-or-absent or already present; otherwise create a row. -/
def storeOne (db : List URec) (item : URec) : List URec :=
  match extIdOf item with
  | none => db
  | some v => if truthy v && !hasExtId db v then db ++ [item] else db

/-- `store_transformed_data(transformed_data)` over the unified table. -/
def store_transformed_data (db : List URec) (recs : List URec) : List URec :=
  recs.foldl storeOne db

/-! ## Relational entities (`core/models.py`)

`UserProfile.external_id` and `Transaction.external_id` are uuids
(modelled as naturals); `Product.price` and `Transaction.amount` are
fixed-point decimals (modelled as rationals); categories are their
unique names.  A `Transaction` row carries its `select_related` user and
product, i.e. the join the enrichment engine loads eagerly. -/

structure UserProfile where
  external_id : ℕ
  name : String
  email : String
  phone : Option String
  country : String
  registered_date : ℕ
deriving Repr, DecidableEq

structure Product where
  external_id : ℤ
  title : String
  price : ℚ
  category : Option String
  description : String
  image_url : String
deriving Repr, DecidableEq

structure Transaction where
  external_id : ℕ
  user : UserProfile
  product : Product
  amount : ℚ
  timestamp : ℕ
deriving Repr, DecidableEq

/-- The persistent state the enrichment engine and the insight queries
touch: the unified table, the relational tables, and the uuid counter. -/
structure DB where
  unified : List URec
  transactions : List Transaction
  users : List UserProfile
  categories : List String
deriving Repr, DecidableEq

/-! ## Enrichment engine: `enrich_transactions` (`core/services.py` 104–160) -/

/-- The enriched payload built for one `Transaction` row. -/
def enrichedData (tr : Transaction) : List (String × Json) :=
  [("transaction_id", .str (toString tr.external_id)),
   ("amount", .str (toString tr.amount)),
   ("timestamp", .num tr.timestamp),
   ("user", .obj
      [("external_id", .str (toString tr.user.external_id)),
       ("name", .str tr.user.name),
       ("email", .str tr.user.email),
       ("phone", match tr.user.phone with | some p => .str p | none => .null),
       ("country", .str tr.user.country),
       ("registered_date", .num tr.user.registered_date)]),
   ("product", .obj
      [("external_id", .num (tr.product.external_id : ℚ)),
       ("title", .str tr.product.title),
       ("price", .str (toString tr.product.price)),
       ("description", .str tr.product.description),
       ("category", match tr.product.category with
                    | some c => .str c
                    | none => .null),
       ("image_url", .str tr.product.image_url)])]

/-- The `UnifiedEntity` row created for one `Transaction` (fresh
`entity_id` from the counter, `now()` instant `t`). -/
def enrichRec (t : ℕ) (eid : ℕ) (tr : Transaction) : URec :=
  { entity_id := eid, entity_type := "transaction",
    timestamp := tr.timestamp, data := enrichedData tr,
    metadata := [("source", .str "Enriched Data"), ("processed_at", .num t)] }

/-- The create loop of `enrich_transactions`: one new row per
transaction, successive fresh `entity_id`s, counting as it goes. -/
def enrichLoop (t : ℕ) : ℕ → List Transaction → List URec
  | _, [] => []
  | s, tr :: trs => enrichRec t s tr :: enrichLoop t (s + 1) trs

/-- `enrich_transactions()`: delete every transaction-typed unified row,
rebuild one row per relational `Transaction`, return the count.  `s` is
the uuid counter, `t` the `now()` instant. -/
def enrich_transactions (db : DB) (s t : ℕ) : ℕ × DB :=
  let kept := db.unified.filter (fun r => r.entity_type ≠ "transaction")
  let fresh := enrichLoop t s db.transactions
  (db.transactions.length, { db with unified := kept ++ fresh })

/-! ## Insight queries (`core/views.py`) -/

/-- SQL `SUM` semantics: `NULL` (here `none`) over the empty set. -/
def sqlSum (xs : List ℚ) : Option ℚ :=
  if xs.isEmpty then none else some xs.sum

/-- SQL `AVG` semantics: `NULL` over the empty set. -/
def sqlAvg (xs : List ℚ) : Option ℚ :=
  if xs.isEmpty then none else some (xs.sum / xs.length)

/-- One row of `UserInsightsView.get`'s response. -/
structure UserInsight where
  external_id : ℕ
  name : String
  email : String
  total_spent : Option ℚ
deriving Repr, DecidableEq

/-- `UserInsightsView.get`: every `UserProfile` annotated with
`Sum('transactions__amount')` (a LEFT JOIN, so a user with no
transactions gets SQL `NULL`). -/
def insights_users (db : DB) : List UserInsight :=
  db.users.map (fun u =>
    { external_id := u.external_id, name := u.name, email := u.email,
      total_spent :=
        sqlSum ((db.transactions.filter
          (fun tr => decide (tr.user = u))).map Transaction.amount) })

/-- `ProductInsightsView.get`: per-category
`Count('products__transactions')` plus
`aggregate(average_value=Avg('amount'))` with the trailing `or 0`. -/
def insights_products (db : DB) : List (String × ℕ) × ℚ :=
  (db.categories.map (fun c =>
     (c, (db.transactions.filter
       (fun tr => decide (tr.product.category = some c))).length)),
   (sqlAvg (db.transactions.map Transaction.amount)).getD 0)

/-! ## Source adapter: `fetch_data_from_api` (`core/fetch_data.py`) -/

def API_ENDPOINTS : List (String × String) :=
  [("products", "https://fakestoreapi.com/products"),
   ("users", "https://randomuser.me/api/?results=20"),
   ("transactions", "https://my.api.mockaroo.com/orders.json?key=e49e6840")]

/-- Lookup in the endpoint table (`API_ENDPOINTS.get(api_name)`). -/
def endpointFor : List (String × String) → String → Option String
  | [], _ => none
  | (k, v) :: rest, k' => if k = k' then some v else endpointFor rest k'

/-- Outcome of one network round-trip for a URL.  Every constructor but
`ok` raises a `requests.exceptions.RequestException` in Python
(`raise_for_status`, timeout/connection errors, and the
`JSONDecodeError` from `response.json()`, which subclasses it). -/
inductive NetResult where
  | ok : Json → NetResult
  | httpError : NetResult
  | transportError : NetResult
  | badJson : NetResult
deriving Repr, DecidableEq

/-- `APIDataCache.objects.update_or_create(endpoint=url, ...)`: replace
the row keyed by the url, or add one. -/
def updateCache (cache : List (String × Json)) (url : String) (data : Json) :
    List (String × Json) :=
  if cache.any (fun p => decide (p.1 = url)) then
    cache.map (fun p => if p.1 = url then (url, data) else p)
  else
    cache ++ [(url, data)]

/-- What one call to `fetch_data_from_api` produced: the returned value,
the response cache afterwards, and whether a network request was made. -/
structure FetchOut where
  result : Json
  cache : List (String × Json)
  netCalled : Bool
deriving Repr, DecidableEq

/-- `fetch_data_from_api(api_name)`: unknown names short-circuit to `[]`
with no request; any `RequestException` is caught and yields `[]`; a
successful fetch caches the payload and returns `data if data else []`.
The function is total: no error ever propagates to the caller. -/
def fetch_data_from_api (net : String → NetResult)
    (cache : List (String × Json)) (api_name : String) : FetchOut :=
  match endpointFor API_ENDPOINTS api_name with
  | none => { result := .arr [], cache := cache, netCalled := false }
  | some url =>
    match net url with
    | .ok data =>
      { result := if truthy data then data else .arr [],
        cache := updateCache cache url data, netCalled := true }
    | _ => { result := .arr [], cache := cache, netCalled := true }

/-! ## Orchestrator: `fetch_and_store_data` / `fetch_all_data` (`core/tasks.py`) -/

/-- The state a task run threads: the unified table, the response cache,
and the uuid counter. -/
structure SysState where
  db : List URec
  cache : List (String × Json)
  nextId : ℕ
deriving Repr, DecidableEq

/-- `fetch_and_store_data(api_name)`: fetch; on falsy data report
failure and stop; otherwise normalize and store and report success.
`none` models the uncaught exception `transform_data` may raise. -/
def fetch_and_store_data (net : String → NetResult) (st : SysState)
    (api_name : String) (t : ℕ) : Option (String × SysState) :=
  let f := fetch_data_from_api net st.cache api_name
  let st1 : SysState := { st with cache := f.cache }
  if ¬ truthy f.result then
    some ("Failed to fetch data from " ++ api_name, st1)
  else do
    let recs ← transform_data api_name f.result st1.nextId t
    some ("Processed data from " ++ api_name,
          { st1 with db := store_transformed_data st1.db recs,
                     nextId := st1.nextId + recs.length })

/-- `fetch_all_data()`: run the per-source task for each configured
source in order, collecting each outcome message under its source name. -/
def fetch_all_data (net : String → NetResult) (st : SysState) (t : ℕ) :
    Option (List (String × String) × SysState) :=
  (["products", "users", "transactions"]).foldlM
    (fun acc api_name => do
      let (msg, st') ← fetch_and_store_data net acc.2 api_name t
      pure (acc.1 ++ [(api_name, msg)], st'))
    (([] : List (String × String)), st)

/-! ## Spec-side views of the normalizer's input contract -/

/-- Nested subscript `item[k1][k2]` as one partial lookup. -/
def getPath2 (item : Json) (k1 k2 : String) : Option Json :=
  (getKey item k1).bind (fun x => getKey x k2)

/-- The items a recognized source's normalization loop iterates over
(`raw_data` itself for products/transactions, `raw_data.get("results",
[])` for users). -/
def itemsOf (api : String) (raw : Json) : Option (List Json) :=
  if api = "users" then
    (asObj raw).bind (fun d => asArr ((alookup d "results").getD (.arr [])))
  else asArr raw

/-- Whether a raw item is missing one of the fields its source's mapping
reads by subscript (the "required fields" of the spec's table). -/
def missingRequired (api : String) (item : Json) : Bool :=
  if api = "products" then
    (getKey item "id").isNone || (getKey item "title").isNone ||
    (getKey item "price").isNone || (getKey item "category").isNone ||
    (getKey item "description").isNone || (getKey item "image").isNone
  else if api = "users" then
    (getPath2 item "login" "uuid").isNone ||
    (getPath2 item "name" "first").isNone ||
    (getPath2 item "name" "last").isNone ||
    (getKey item "email").isNone ||
    (getPath2 item "location" "country").isNone ||
    (getPath2 item "registered" "date").isNone
  else if api = "transactions" then
    (getKey item "id").isNone || (getKey item "status").isNone ||
    (getKey item "eta").isNone || (getKey item "user_name").isNone ||
    (getKey item "user_phone").isNone
  else false

/-! ## Concrete inputs used by witnesses and counterexamples -/

/-- Scenario A raw product item. -/
def itemA : Json :=
  .obj [("id", .num 1), ("title", .str "Shirt"), ("price", .num (999/100)),
        ("category", .str "clothing"), ("description", .str ""),
        ("image", .str "http://x/y.png")]

/-- A raw product item missing the required `title` field. -/
def badItem : Json := .obj [("id", .num 2)]

/-- Scenario B raw transaction item. -/
def itemB : Json :=
  .obj [("id", .num 5), ("status", .str "placed"), ("eta", .str "e"),
        ("user_name", .str "A"), ("user_phone", .str "1"),
        ("parcel_id", .str "p1")]

/-- A raw transaction item whose external identity is the falsy `0`. -/
def itemZ : Json :=
  .obj [("id", .num 0), ("status", .str "placed"), ("eta", .str "e"),
        ("user_name", .str "A"), ("user_phone", .str "1"),
        ("parcel_id", .str "p1")]

/-- A unified record whose payload carries the falsy external identity `0`. -/
def recZero : URec :=
  { entity_id := 0, entity_type := "product", timestamp := 0,
    data := [("external_id", .num 0)], metadata := [] }

/-- A unified record with the truthy external identity `1`. -/
def recOne : URec :=
  { entity_id := 0, entity_type := "product", timestamp := 0,
    data := [("external_id", .num 1)], metadata := [] }

/-- The record Scenario B's normalization produces (entity id `eid`,
`now()` instant 7). -/
def recB (eid : ℕ) : URec :=
  { entity_id := eid, entity_type := "transaction", timestamp := 7,
    data := [("external_id", .num 5), ("status", .str "placed"),
             ("eta", .str "e"), ("user_name", .str "A"),
             ("user_phone", .str "1"), ("amount", .num 50),
             ("parcel_id", .str "p1")],
    metadata := [("source", .str "MockarooAPI"), ("processed_at", .num 7)] }

/-- The record normalizing `itemZ` produces. -/
def recZ (eid : ℕ) : URec :=
  { entity_id := eid, entity_type := "transaction", timestamp := 7,
    data := [("external_id", .num 0), ("status", .str "placed"),
             ("eta", .str "e"), ("user_name", .str "A"),
             ("user_phone", .str "1"), ("amount", .num 0),
             ("parcel_id", .str "p1")],
    metadata := [("source", .str "MockarooAPI"), ("processed_at", .num 7)] }

/-- A relational user row. -/
def user1 : UserProfile :=
  { external_id := 1, name := "A", email := "a@b", phone := none,
    country := "NZ", registered_date := 0 }

/-- A relational product row in the `clothing` category. -/
def product1 : Product :=
  { external_id := 1, title := "Shirt", price := 999/100,
    category := some "clothing", description := "", image_url := "u" }

/-- A relational transaction row joining `user1` and `product1`. -/
def tx1 : Transaction :=
  { external_id := 9, user := user1, product := product1, amount := 10,
    timestamp := 3 }

/-- A transaction-typed unified record from before an enrichment run. -/
def oldTransRec : URec :=
  { entity_id := 0, entity_type := "transaction", timestamp := 1,
    data := [], metadata := [] }

/-- A database holding one stale enriched record, one product record,
and one relational transaction. -/
def dbEnrich : DB :=
  { unified := [oldTransRec, recOne], transactions := [tx1],
    users := [user1], categories := ["clothing"] }

/-- A database with one user, one category, and no transactions. -/
def dbNoTx : DB :=
  { unified := [], transactions := [], users := [user1],
    categories := ["clothing"] }

/-- A network with all endpoints down. -/
def netDown : String → NetResult := fun _ => .transportError

/-- A network where the products endpoint fails while the user and
transaction endpoints answer. -/
def netMixed : String → NetResult := fun url =>
  if url = "https://my.api.mockaroo.com/orders.json?key=e49e6840" then
    .ok (.arr [itemB])
  else if url = "https://randomuser.me/api/?results=20" then
    .ok (.obj [("results", .arr [])])
  else .transportError

/-! ## Lemmas about the deduplicating store -/

theorem hasExtId_append_left {db l : List URec} {v : Json}
    (h : hasExtId db v = true) : hasExtId (db ++ l) v = true := by
  unfold hasExtId at h ⊢
  simp [List.any_append, h]

theorem storeOne_skip_none {db : List URec} {r : URec}
    (hx : extIdOf r = none) : storeOne db r = db := by
  simp [storeOne, hx]

theorem storeOne_skip_falsy {db : List URec} {r : URec} {v : Json}
    (hx : extIdOf r = some v) (hv : truthy v = false) : storeOne db r = db := by
  simp [storeOne, hx, hv]

theorem storeOne_skip_dup {db : List URec} {r : URec} {v : Json}
    (hx : extIdOf r = some v) (h : hasExtId db v = true) :
    storeOne db r = db := by
  simp [storeOne, hx, h]

theorem storeOne_insert {db : List URec} {r : URec} {v : Json}
    (hx : extIdOf r = some v) (hv : truthy v = true)
    (h : hasExtId db v = false) : storeOne db r = db ++ [r] := by
  simp [storeOne, hx, hv, h]

theorem hasExtId_storeOne {db : List URec} {v : Json} (r : URec)
    (h : hasExtId db v = true) : hasExtId (storeOne db r) v = true := by
  rcases hx : extIdOf r with _ | w
  · rw [storeOne_skip_none hx]; exact h
  · by_cases hw : truthy w = true
    · by_cases hd : hasExtId db w = true
      · rw [storeOne_skip_dup hx hd]; exact h
      · rw [storeOne_insert hx hw (Bool.eq_false_iff.mpr hd)]
        exact hasExtId_append_left h
    · rw [storeOne_skip_falsy hx (Bool.eq_false_iff.mpr hw)]; exact h

theorem hasExtId_store {db : List URec} {v : Json} (rs : List URec)
    (h : hasExtId db v = true) :
    hasExtId (store_transformed_data db rs) v = true := by
  induction rs generalizing db with
  | nil => exact h
  | cons r rs ih => exact ih (hasExtId_storeOne r h)

theorem hasExtId_storeOne_self (db : List URec) {r : URec} {v : Json}
    (hx : extIdOf r = some v) (hv : truthy v = true) :
    hasExtId (storeOne db r) v = true := by
  by_cases h : hasExtId db v = true
  · exact hasExtId_storeOne r h
  · rw [storeOne_insert hx hv (Bool.eq_false_iff.mpr h)]
    unfold hasExtId
    simp [List.any_append, hx]

theorem store_cons (db : List URec) (r : URec) (rs : List URec) :
    store_transformed_data db (r :: rs)
      = store_transformed_data (storeOne db r) rs := rfl

/-- Replaying a batch after it has been stored changes nothing. -/
theorem store_store (rs : List URec) :
    ∀ db, store_transformed_data (store_transformed_data db rs) rs
            = store_transformed_data db rs := by
  induction rs with
  | nil => intro db; rfl
  | cons r rs ih =>
    intro db
    have hskip :
        storeOne (store_transformed_data (storeOne db r) rs) r
          = store_transformed_data (storeOne db r) rs := by
      rcases hx : extIdOf r with _ | v
      · exact storeOne_skip_none hx
      · by_cases hv : truthy v = true
        · exact storeOne_skip_dup hx
            (hasExtId_store rs (hasExtId_storeOne_self db hx hv))
        · exact storeOne_skip_falsy hx (Bool.eq_false_iff.mpr hv)
    calc store_transformed_data (store_transformed_data db (r :: rs)) (r :: rs)
        = store_transformed_data
            (storeOne (store_transformed_data (storeOne db r) rs) r) rs := rfl
      _ = store_transformed_data (store_transformed_data (storeOne db r) rs)
            rs := by rw [hskip]
      _ = store_transformed_data (storeOne db r) rs := ih _

/-- One store step preserves pairwise-distinct external identities. -/
theorem distinctExt_storeOne {db : List URec} (r : URec)
    (h : List.Pairwise (fun a b => extIdOf a ≠ extIdOf b) db) :
    List.Pairwise (fun a b => extIdOf a ≠ extIdOf b) (storeOne db r) := by
  rcases hx : extIdOf r with _ | v
  · rw [storeOne_skip_none hx]; exact h
  · by_cases hv : truthy v = true
    · by_cases hd : hasExtId db v = true
      · rw [storeOne_skip_dup hx hd]; exact h
      · have hd' : hasExtId db v = false := Bool.eq_false_iff.mpr hd
        rw [storeOne_insert hx hv hd']
        refine List.pairwise_append.mpr ⟨h, List.pairwise_singleton _ _, ?_⟩
        intro a ha b hb
        rw [List.mem_singleton] at hb
        subst hb
        rw [hx]
        intro hEq
        have : hasExtId db v = true := by
          simp only [hasExtId, List.any_eq_true, decide_eq_true_eq]
          exact ⟨a, ha, hEq⟩
        simp [this] at hd'
    · rw [storeOne_skip_falsy hx (Bool.eq_false_iff.mpr hv)]; exact h

/-- The store preserves pairwise-distinct external identities. -/
theorem distinctExt_store (rs : List URec) :
    ∀ db, List.Pairwise (fun a b => extIdOf a ≠ extIdOf b) db →
      List.Pairwise (fun a b => extIdOf a ≠ extIdOf b)
        (store_transformed_data db rs) := by
  induction rs with
  | nil => intro db h; exact h
  | cons r rs ih => intro db h; exact ih _ (distinctExt_storeOne r h)

/-- C1: calling `store_transformed_data` twice with the same record
sequence leaves the persisted set identical to calling it once (the
second call persists nothing new), and the persisted set never holds two
records with the same external identity inside their payload. -/
theorem store_idempotent_and_duplicate_free (rs : List URec) :
    (∀ db, store_transformed_data (store_transformed_data db rs) rs
             = store_transformed_data db rs) ∧
    List.Pairwise (fun a b => extIdOf a ≠ extIdOf b)
      (store_transformed_data [] rs) :=
  ⟨fun db => store_store rs db, distinctExt_store rs [] List.Pairwise.nil⟩

/-- C7 counterexample: a record whose payload carries the present (not
absent) external identity `0`, which no stored record duplicates, is
nevertheless not persisted — refuting "otherwise the record is persisted
as a new row". -/
theorem store_present_falsy_identity_not_persisted :
    extIdOf recZero = some (.num 0) ∧
    hasExtId [] (.num 0) = false ∧
    store_transformed_data [] [recZero] = [] := by
  refine ⟨by decide, by decide, by decide⟩

/-- C7 (amended): per-record behavior of `store_transformed_data`:
absent external identity — skipped, nothing persisted; present but
falsy identity — likewise skipped; identity already persisted —
silently skipped as a no-op; otherwise (present, truthy, new) the
record is persisted as a new row. -/
theorem store_single_record_cases (db : List URec) (r : URec) :
    (extIdOf r = none → store_transformed_data db [r] = db) ∧
    (∀ v, extIdOf r = some v → truthy v = false →
       store_transformed_data db [r] = db) ∧
    (∀ v, extIdOf r = some v → hasExtId db v = true →
       store_transformed_data db [r] = db) ∧
    (∀ v, extIdOf r = some v → truthy v = true → hasExtId db v = false →
       store_transformed_data db [r] = db ++ [r]) := by
  refine ⟨fun hx => storeOne_skip_none hx,
          fun v hx hv => storeOne_skip_falsy hx hv,
          fun v hx hd => storeOne_skip_dup hx hd,
          fun v hx hv hd => storeOne_insert hx hv hd⟩

/-- C7 witness: a fresh truthy identity is persisted; replaying it is
then skipped as a duplicate. -/
theorem store_single_record_cases_witness :
    store_transformed_data [] [recOne] = [recOne] ∧
    store_transformed_data [recOne] [recOne] = [recOne] := by
  constructor
  · exact (store_single_record_cases [] recOne).2.2.2 (.num 1)
      (by decide) (by decide) (by decide)
  · exact (store_single_record_cases [recOne] recOne).2.2.1 (.num 1)
      (by decide) (by decide)

/-- C10: a record whose payload's external identity is present but
falsy — `0`, `""`, or `null` — is skipped by the store exactly as if the
identity were absent, whatever the current table contents. -/
theorem store_skips_falsy_identity (db : List URec) (r : URec) (v : Json)
    (hx : extIdOf r = some v)
    (hv : v = .num 0 ∨ v = .str "" ∨ v = .null) :
    store_transformed_data db [r] = db := by
  refine storeOne_skip_falsy hx ?_
  rcases hv with h | h | h <;> subst h <;> rfl

/-- C10 witness: the identity `0` is present in the payload, absent from
the empty table, and the record is still skipped. -/
theorem store_skips_falsy_identity_witness :
    store_transformed_data [] [recZero] = [] :=
  store_skips_falsy_identity [] recZero (.num 0) (by decide) (Or.inl rfl)

/-! ## Lemmas about the normalizer -/

theorem transform_data_products_eq (raw : Json) (s t : ℕ) :
    transform_data "products" raw s t
      = (asArr raw).bind (fun items => buildRecs (productRec t) s items) := rfl

theorem transform_data_users_eq (raw : Json) (s t : ℕ) :
    transform_data "users" raw s t
      = (asObj raw).bind (fun d =>
          (asArr ((alookup d "results").getD (.arr []))).bind (fun items =>
            buildRecs (userRec t) s items)) := rfl

theorem transform_data_transactions_eq (raw : Json) (s t : ℕ) :
    transform_data "transactions" raw s t
      = (asArr raw).bind (fun items =>
          buildRecs (transactionRec t) s items) := rfl

theorem asObj_getKey {item : Json} {d : List (String × Json)}
    (h : asObj item = some d) (k : String) : getKey item k = alookup d k := by
  cases item <;> simp [asObj] at h
  subst h; rfl

theorem buildRecs_mem {f : ℕ → Json → Option URec} {x : Json} :
    ∀ {s : ℕ} {xs : List Json} {rs : List URec},
      buildRecs f s xs = some rs → x ∈ xs → ∃ eid r, f eid x = some r := by
  intro s xs
  induction xs generalizing s with
  | nil => intro rs _ hmem; cases hmem
  | cons y ys ih =>
    intro rs h hmem
    simp only [buildRecs, Option.bind_eq_bind', Option.bind_eq_some',
               Option.pure_def, Option.some.injEq] at h
    obtain ⟨r, hr, rest, hrest, _⟩ := h
    rcases List.mem_cons.mp hmem with rfl | hmem'
    · exact ⟨s, r, hr⟩
    · exact ih hrest hmem'

theorem buildRecs_length {f : ℕ → Json → Option URec} :
    ∀ {s : ℕ} {xs : List Json} {rs : List URec},
      buildRecs f s xs = some rs → rs.length = xs.length := by
  intro s xs
  induction xs generalizing s with
  | nil => intro rs h; simp [buildRecs] at h; subst h; rfl
  | cons y ys ih =>
    intro rs h
    simp only [buildRecs, Option.bind_eq_bind', Option.bind_eq_some',
               Option.pure_def, Option.some.injEq] at h
    obtain ⟨r, _, rest, hrest, hr⟩ := h
    subst hr
    simp [ih hrest]

theorem buildRecs_get {f : ℕ → Json → Option URec} :
    ∀ {s : ℕ} {xs : List Json} {rs : List URec},
      buildRecs f s xs = some rs →
      ∀ i (hi : i < xs.length) (hi' : i < rs.length),
        f (s + i) (xs.get ⟨i, hi⟩) = some (rs.get ⟨i, hi'⟩) := by
  intro s xs
  induction xs generalizing s with
  | nil => intro rs _ i hi; cases (Nat.not_lt_zero i) hi
  | cons y ys ih =>
    intro rs h i hi hi'
    simp only [buildRecs, Option.bind_eq_bind', Option.bind_eq_some',
               Option.pure_def, Option.some.injEq] at h
    obtain ⟨r, hr, rest, hrest, hcons⟩ := h
    subst hcons
    match i with
    | 0 => simpa using hr
    | Nat.succ j =>
      have hj : j < ys.length := Nat.lt_of_succ_lt_succ hi
      have hj' : j < rest.length := Nat.lt_of_succ_lt_succ hi'
      have := ih hrest j hj hj'
      have harith : s + (j + 1) = (s + 1) + j := by omega
      rw [harith]
      simpa using this

theorem buildRecs_singleton {f : ℕ → Json → Option URec} {s : ℕ}
    {xs : List Json} {r : URec} (h : buildRecs f s xs = some [r]) :
    ∃ x, xs = [x] ∧ f s x = some r := by
  have hlen : xs.length = 1 := by simpa using (buildRecs_length h).symm
  obtain ⟨x, hx⟩ := List.length_eq_one.mp hlen
  subst hx
  refine ⟨x, rfl, ?_⟩
  have := buildRecs_get h 0 (by simp) (by simp)
  simpa using this

/-- Inversion of a successful product-item mapping. -/
theorem productRec_inv {t eid : ℕ} {item : Json} {r : URec}
    (h : productRec t eid item = some r) :
    r.entity_id = eid ∧ extIdOf r = getKey item "id" ∧
    missingRequired "products" item = false := by
  simp only [productRec, Option.bind_eq_bind', Option.bind_eq_some',
             Option.pure_def, Option.some.injEq] at h
  obtain ⟨idv, hid, title, ht, price, hp, cat, hc, desc, hd, img, hi, hr⟩ := h
  subst hr
  refine ⟨rfl, ?_, ?_⟩
  · simp [extIdOf, alookup, hid]
  · simp [missingRequired, hid, ht, hp, hc, hd, hi]

/-- Inversion of a successful user-item mapping. -/
theorem userRec_inv {t eid : ℕ} {item : Json} {r : URec}
    (h : userRec t eid item = some r) :
    r.entity_id = eid ∧ extIdOf r = getPath2 item "login" "uuid" ∧
    missingRequired "users" item = false := by
  simp only [userRec, Option.bind_eq_bind', Option.bind_eq_some',
             Option.pure_def, Option.some.injEq] at h
  obtain ⟨login, hlogin, uuid, huuid, nameObj, hname, first, hfirst, last,
          hlast, email, hemail, d, hd, location, hloc, country, hcountry,
          registered, hreg, rdate, hrdate, hr⟩ := h
  subst hr
  refine ⟨rfl, ?_, ?_⟩
  · simp [extIdOf, alookup, getPath2, hlogin, huuid]
  · simp [missingRequired, getPath2, hlogin, huuid, hname, hfirst, hlast,
          hemail, hloc, hcountry, hreg, hrdate]

/-- Inversion of a successful transaction-item mapping, including the
derived amount. -/
theorem transactionRec_inv {t eid : ℕ} {item : Json} {r : URec}
    (h : transactionRec t eid item = some r) :
    r.entity_id = eid ∧ extIdOf r = getKey item "id" ∧
    missingRequired "transactions" item = false ∧
    ∃ idv q, getKey item "id" = some idv ∧ pyFloat idv = some q ∧
      alookup r.data "amount" = some (.num (q * 10)) := by
  simp only [transactionRec, Option.bind_eq_bind', Option.bind_eq_some',
             Option.pure_def, Option.some.injEq] at h
  obtain ⟨d, hd, amt, hamt, idv, hid, st', hst, eta, heta, un, hun, up,
          hup, hr⟩ := h
  subst hr
  have hda : alookup d "id" = some idv := by
    rw [← asObj_getKey hd "id"]; exact hid
  rw [hda] at hamt
  simp only [Option.getD_some] at hamt
  refine ⟨rfl, ?_, ?_, idv, amt, hid, hamt, ?_⟩
  · simp [extIdOf, alookup, hid]
  · simp [missingRequired, hid, hst, heta, hun, hup]
  · simp [alookup]

/-- Normalizing the Scenario B batch: concrete evaluation. -/
theorem transform_itemB (s : ℕ) :
    transform_data "transactions" (.arr [itemB]) s 7 = some [recB s] := by
  simp only [transform_data_transactions_eq, asArr, Option.some_bind']
  simp [buildRecs, transactionRec, itemB, asObj, alookup, pyFloat, getKey, recB]
  norm_num

/-- Normalizing the batch whose item carries the falsy id `0`. -/
theorem transform_itemZ (s : ℕ) :
    transform_data "transactions" (.arr [itemZ]) s 7 = some [recZ s] := by
  simp only [transform_data_transactions_eq, asArr, Option.some_bind']
  simp [buildRecs, transactionRec, itemZ, asObj, alookup, pyFloat, getKey, recZ]

/-- C4: for a recognized source, one item missing a required field
makes the whole normalization batch fail: the error propagates and no
records are returned for any item of the batch. -/
theorem normalize_aborts_batch_on_missing_field
    (api : String) (raw : Json) (s t : ℕ) (items : List Json) (item : Json)
    (hapi : api = "products" ∨ api = "users" ∨ api = "transactions")
    (hitems : itemsOf api raw = some items)
    (hmem : item ∈ items)
    (hmiss : missingRequired api item = true) :
    transform_data api raw s t = none := by
  by_contra hne
  obtain ⟨rs, hrs⟩ := Option.ne_none_iff_exists'.mp hne
  rcases hapi with h | h | h <;> subst h
  · rw [transform_data_products_eq] at hrs
    have hraw : asArr raw = some items := hitems
    rw [hraw, Option.some_bind'] at hrs
    obtain ⟨eid, r, hr⟩ := buildRecs_mem hrs hmem
    rw [(productRec_inv hr).2.2] at hmiss
    cases hmiss
  · rw [transform_data_users_eq] at hrs
    obtain ⟨d, hdo, hitems'⟩ := Option.bind_eq_some'.mp hitems
    rw [hdo, Option.some_bind', hitems', Option.some_bind'] at hrs
    obtain ⟨eid, r, hr⟩ := buildRecs_mem hrs hmem
    rw [(userRec_inv hr).2.2] at hmiss
    cases hmiss
  · rw [transform_data_transactions_eq] at hrs
    have hraw : asArr raw = some items := hitems
    rw [hraw, Option.some_bind'] at hrs
    obtain ⟨eid, r, hr⟩ := buildRecs_mem hrs hmem
    rw [(transactionRec_inv hr).2.2.1] at hmiss
    cases hmiss

/-- C4 witness: a batch holding a well-formed product item followed by
one missing its `title` yields no records at all. -/
theorem normalize_aborts_batch_on_missing_field_witness :
    transform_data "products" (.arr [itemA, badItem]) 0 7 = none :=
  normalize_aborts_batch_on_missing_field "products" (.arr [itemA, badItem])
    0 7 [itemA, badItem] badItem (Or.inl rfl) rfl (by decide) (by decide)

/-- C6: in every successfully normalized transactions batch, each
record's payload amount is derived as `float(id) * 10.0` from the item's
`id` field, not read from the source. -/
theorem transactions_amount_is_id_times_ten
    (raw : Json) (s t : ℕ) (recs : List URec) (xs : List Json)
    (h : transform_data "transactions" raw s t = some recs)
    (hxs : asArr raw = some xs) :
    recs.length = xs.length ∧
    ∀ i (hi : i < xs.length) (hi' : i < recs.length),
      ∃ idv q, getKey (xs.get ⟨i, hi⟩) "id" = some idv ∧
        pyFloat idv = some q ∧
        alookup (recs.get ⟨i, hi'⟩).data "amount" = some (.num (q * 10)) := by
  rw [transform_data_transactions_eq, hxs, Option.some_bind'] at h
  refine ⟨buildRecs_length h, ?_⟩
  intro i hi hi'
  exact (transactionRec_inv (buildRecs_get h i hi hi')).2.2.2

/-- C6 witness: Scenario B — the raw transaction item with `id = 5`
yields a record whose payload amount is `50.0`. -/
theorem transactions_amount_is_id_times_ten_witness :
    ∃ idv q, getKey itemB "id" = some idv ∧ pyFloat idv = some q ∧
      alookup (recB 0).data "amount" = some (.num (q * 10)) := by
  have h := transactions_amount_is_id_times_ten (.arr [itemB]) 0 7
    [recB 0] [itemB] (transform_itemB 0) rfl
  simpa using h.2 0 (by decide) (by decide)

/-- Storing a fresh record with a truthy identity and then a second
record with the same identity persists only the first. -/
theorem store_two_same_identity {r1 r2 : URec} {v : Json}
    (h1 : extIdOf r1 = some v) (h2 : extIdOf r2 = some v)
    (hv : truthy v = true) :
    store_transformed_data (store_transformed_data [] [r1]) [r2] = [r1] := by
  have hstep1 : store_transformed_data [] [r1] = [r1] := by
    have := @storeOne_insert [] r1 v h1 hv rfl
    simpa using this
  rw [hstep1]
  exact storeOne_skip_dup h2 (by simp [hasExtId, h1])

/-- C9 counterexample: normalizing the raw transaction item with the
falsy identity `0` in two separate runs gives records with distinct
`entity_id` and equal external identity, yet storing the first batch and
then the second persists neither — refuting "persists only the first". -/
theorem normalize_twice_falsy_identity_persists_nothing :
    transform_data "transactions" (.arr [itemZ]) 0 7 = some [recZ 0] ∧
    transform_data "transactions" (.arr [itemZ]) 1 7 = some [recZ 1] ∧
    (recZ 0).entity_id ≠ (recZ 1).entity_id ∧
    extIdOf (recZ 0) = extIdOf (recZ 1) ∧
    store_transformed_data (store_transformed_data [] [recZ 0]) [recZ 1]
      = [] := by
  refine ⟨transform_itemZ 0, transform_itemZ 1, by decide, by decide, by decide⟩

/-- C9 (amended): normalizing the same raw item in two runs drawing
distinct fresh identities gives records with different `entity_id` and
the same external identity in the payload; when that identity is truthy,
storing the first batch and then the second persists only the first —
the second is rejected by the store as a duplicate. -/
theorem normalize_twice_store_rejects_second
    (api : String) (raw : Json) (s1 t1 s2 t2 : ℕ) (r1 r2 : URec)
    (hapi : api = "products" ∨ api = "users" ∨ api = "transactions")
    (h1 : transform_data api raw s1 t1 = some [r1])
    (h2 : transform_data api raw s2 t2 = some [r2])
    (hs : s1 ≠ s2) :
    r1.entity_id ≠ r2.entity_id ∧ extIdOf r1 = extIdOf r2 ∧
    ∀ v, extIdOf r1 = some v → truthy v = true →
      store_transformed_data (store_transformed_data [] [r1]) [r2]
        = [r1] := by
  have base : r1.entity_id = s1 ∧ r2.entity_id = s2 ∧
      extIdOf r1 = extIdOf r2 := by
    rcases hapi with h | h | h <;> subst h
    · rw [transform_data_products_eq] at h1 h2
      obtain ⟨xs1, hxs1, hb1⟩ := Option.bind_eq_some'.mp h1
      obtain ⟨xs2, hxs2, hb2⟩ := Option.bind_eq_some'.mp h2
      rw [hxs1] at hxs2
      obtain rfl : xs1 = xs2 := Option.some.inj hxs2
      obtain ⟨x, hx, hf1⟩ := buildRecs_singleton hb1
      subst hx
      obtain ⟨x', hx', hf2⟩ := buildRecs_singleton hb2
      obtain rfl : x = x' := (List.cons.inj hx').1
      obtain ⟨he1, hi1, -⟩ := productRec_inv hf1
      obtain ⟨he2, hi2, -⟩ := productRec_inv hf2
      exact ⟨he1, he2, hi1.trans hi2.symm⟩
    · rw [transform_data_users_eq] at h1 h2
      obtain ⟨d1, hd1, h1'⟩ := Option.bind_eq_some'.mp h1
      obtain ⟨d2, hd2, h2'⟩ := Option.bind_eq_some'.mp h2
      rw [hd1] at hd2
      obtain rfl : d1 = d2 := Option.some.inj hd2
      obtain ⟨xs1, hxs1, hb1⟩ := Option.bind_eq_some'.mp h1'
      obtain ⟨xs2, hxs2, hb2⟩ := Option.bind_eq_some'.mp h2'
      rw [hxs1] at hxs2
      obtain rfl : xs1 = xs2 := Option.some.inj hxs2
      obtain ⟨x, hx, hf1⟩ := buildRecs_singleton hb1
      subst hx
      obtain ⟨x', hx', hf2⟩ := buildRecs_singleton hb2
      obtain rfl : x = x' := (List.cons.inj hx').1
      obtain ⟨he1, hi1, -⟩ := userRec_inv hf1
      obtain ⟨he2, hi2, -⟩ := userRec_inv hf2
      exact ⟨he1, he2, hi1.trans hi2.symm⟩
    · rw [transform_data_transactions_eq] at h1 h2
      obtain ⟨xs1, hxs1, hb1⟩ := Option.bind_eq_some'.mp h1
      obtain ⟨xs2, hxs2, hb2⟩ := Option.bind_eq_some'.mp h2
      rw [hxs1] at hxs2
      obtain rfl : xs1 = xs2 := Option.some.inj hxs2
      obtain ⟨x, hx, hf1⟩ := buildRecs_singleton hb1
      subst hx
      obtain ⟨x', hx', hf2⟩ := buildRecs_singleton hb2
      obtain rfl : x = x' := (List.cons.inj hx').1
      obtain ⟨he1, hi1, -, -⟩ := transactionRec_inv hf1
      obtain ⟨he2, hi2, -, -⟩ := transactionRec_inv hf2
      exact ⟨he1, he2, hi1.trans hi2.symm⟩
  obtain ⟨he1, he2, hEq⟩ := base
  refine ⟨by rw [he1, he2]; exact hs, hEq, ?_⟩
  intro v hv1 hvt
  exact store_two_same_identity hv1 (hEq ▸ hv1) hvt

/-- C9 witness: the Scenario B item normalized in two runs; the second
record is rejected as a duplicate and only the first is persisted. -/
theorem normalize_twice_store_rejects_second_witness :
    (recB 0).entity_id ≠ (recB 1).entity_id ∧
    extIdOf (recB 0) = extIdOf (recB 1) ∧
    store_transformed_data (store_transformed_data [] [recB 0]) [recB 1]
      = [recB 0] := by
  have h := normalize_twice_store_rejects_second "transactions"
    (.arr [itemB]) 0 7 1 7 (recB 0) (recB 1) (Or.inr (Or.inr rfl))
    (transform_itemB 0) (transform_itemB 1) (by decide)
  exact ⟨h.1, h.2.1, h.2.2 (.num 5) (by decide) (by decide)⟩

/-! ## Lemmas about the enrichment engine -/

theorem enrichLoop_length (t : ℕ) :
    ∀ (s : ℕ) (trs : List Transaction),
      (enrichLoop t s trs).length = trs.length := by
  intro s trs
  induction trs generalizing s with
  | nil => rfl
  | cons tr trs ih => simp [enrichLoop, ih]

theorem enrichLoop_mem (t : ℕ) :
    ∀ (s : ℕ) (trs : List Transaction) (r : URec),
      r ∈ enrichLoop t s trs →
      r.entity_type = "transaction" ∧ s ≤ r.entity_id := by
  intro s trs
  induction trs generalizing s with
  | nil => intro r hr; cases hr
  | cons tr trs ih =>
    intro r hr
    rcases List.mem_cons.mp hr with rfl | hr'
    · exact ⟨rfl, Nat.le_refl s⟩
    · obtain ⟨hty, hle⟩ := ih (s + 1) r hr'
      exact ⟨hty, Nat.le_of_succ_le hle⟩

theorem filter_ne_then_eq (l : List URec) :
    (l.filter (fun r => r.entity_type ≠ "transaction")).filter
        (fun r => r.entity_type = "transaction") = [] := by
  induction l with
  | nil => rfl
  | cons a l ih =>
    by_cases h : a.entity_type = "transaction" <;> simp [List.filter, h, ih]

/-- C2: after `enrich_transactions`, the number of transaction-typed
unified records equals the number of relational `Transaction` rows,
every transaction-typed record from before the call is gone, and the
returned value equals the number of records inserted.  The hypothesis
says all pre-existing `entity_id`s predate the fresh uuid counter
(collision freedom of uuid4). -/
theorem enrich_replaces_transactions (db : DB) (s t : ℕ)
    (hfresh : ∀ r ∈ db.unified, r.entity_id < s) :
    (((enrich_transactions db s t).2.unified.filter
        (fun r => r.entity_type = "transaction")).length
       = (enrich_transactions db s t).2.transactions.length) ∧
    (∀ r ∈ db.unified, r.entity_type = "transaction" →
       r ∉ (enrich_transactions db s t).2.unified) ∧
    (enrich_transactions db s t).1
       = (enrichLoop t s db.transactions).length := by
  refine ⟨?_, ?_, (enrichLoop_length t s db.transactions).symm⟩
  · show ((db.unified.filter (fun r => r.entity_type ≠ "transaction")
        ++ enrichLoop t s db.transactions).filter
          (fun r => r.entity_type = "transaction")).length
      = db.transactions.length
    rw [List.filter_append, filter_ne_then_eq, List.nil_append]
    have hall : (enrichLoop t s db.transactions).filter
        (fun r => r.entity_type = "transaction")
          = enrichLoop t s db.transactions := by
      refine List.filter_eq_self.mpr ?_
      intro r hr
      simp [(enrichLoop_mem t s db.transactions r hr).1]
    rw [hall, enrichLoop_length]
  · intro r hrold hrty hrnew
    rcases List.mem_append.mp hrnew with hkept | hfreshmem
    · have := List.of_mem_filter hkept
      simp [hrty] at this
    · have := (enrichLoop_mem t s db.transactions r hfreshmem).2
      have hlt := hfresh r hrold
      omega

/-- C2 witness: a database with one stale transaction-typed record and
one relational transaction; enrichment leaves exactly one
transaction-typed record, drops the stale one, and returns 1. -/
theorem enrich_replaces_transactions_witness :
    (((enrich_transactions dbEnrich 5 9).2.unified.filter
        (fun r => r.entity_type = "transaction")).length
       = (enrich_transactions dbEnrich 5 9).2.transactions.length) ∧
    (oldTransRec ∉ (enrich_transactions dbEnrich 5 9).2.unified) ∧
    (enrich_transactions dbEnrich 5 9).1
       = (enrichLoop 9 5 dbEnrich.transactions).length := by
  have h := enrich_replaces_transactions dbEnrich 5 9 (by decide)
  exact ⟨h.1, h.2.1 oldTransRec (by decide) rfl, h.2.2⟩

/-! ## Lemmas about the insight queries -/

/-- C3 counterexample: for a user with no transactions the user-insight
query reports `total_spent = None` (SQL `NULL` from `Sum` over no
rows), not `0` as claimed. -/
theorem insights_users_reports_null_not_zero :
    insights_users dbNoTx
      = [{ external_id := 1, name := "A", email := "a@b",
           total_spent := none }] ∧
    (none : Option ℚ) ≠ some 0 := by
  refine ⟨by decide, by simp⟩

/-- C3 (amended): the insight queries are total on empty data: a user
with no transactions appears in `insights_users` with `total_spent =
None` (SQL `NULL`, not `0`); with no transactions at all,
`insights_products` reports `average_transaction_value = 0` and a zero
transaction count for every category. -/
theorem insights_empty_data_semantics (db : DB) :
    (∀ u ∈ db.users,
       db.transactions.filter (fun tr => tr.user = u) = [] →
       ({ external_id := u.external_id, name := u.name, email := u.email,
          total_spent := none } : UserInsight) ∈ insights_users db) ∧
    (db.transactions = [] →
       insights_products db = (db.categories.map (fun c => (c, 0)), 0)) := by
  constructor
  · intro u hu hemp
    refine List.mem_map.mpr ⟨u, hu, ?_⟩
    simp [hemp, sqlSum]
  · intro htx
    simp [insights_products, htx, sqlAvg]

/-- C3 witness: on the concrete empty-transaction database both queries
yield the zero/null row shapes. -/
theorem insights_empty_data_semantics_witness :
    ({ external_id := 1, name := "A", email := "a@b",
       total_spent := none } : UserInsight) ∈ insights_users dbNoTx ∧
    insights_products dbNoTx = ([("clothing", 0)], 0) := by
  have h := insights_empty_data_semantics dbNoTx
  constructor
  · exact h.1 user1 (by decide) (by decide)
  · have := h.2 rfl
    simpa [dbNoTx] using this

/-! ## Lemmas about the source adapter -/

/-- C5: the fetch boundary never propagates failure: any non-`ok`
network outcome yields the empty result and leaves the response cache
untouched, and an unrecognized source name yields the empty result with
no network call and no cache write. -/
theorem fetch_returns_empty_on_failure
    (net : String → NetResult) (cache : List (String × Json))
    (api : String) :
    (api ∉ ["products", "users", "transactions"] →
       fetch_data_from_api net cache api
         = { result := .arr [], cache := cache, netCalled := false }) ∧
    (∀ url, endpointFor API_ENDPOINTS api = some url →
       (∀ d, net url ≠ .ok d) →
       fetch_data_from_api net cache api
         = { result := .arr [], cache := cache, netCalled := true }) := by
  constructor
  · intro hmem
    have h1 : ¬ ("products" = api) := fun h => hmem (by simp [h.symm])
    have h2 : ¬ ("users" = api) := fun h => hmem (by simp [h.symm])
    have h3 : ¬ ("transactions" = api) := fun h => hmem (by simp [h.symm])
    simp [fetch_data_from_api, endpointFor, API_ENDPOINTS, h1, h2, h3]
  · intro url hurl hne
    simp only [fetch_data_from_api, hurl]

/-- C5 witness: with every endpoint down, fetching `products` returns
the empty result and writes nothing; the unknown name `bogus` returns
the empty result without even a network call. -/
theorem fetch_returns_empty_on_failure_witness :
    fetch_data_from_api netDown [] "products"
      = { result := .arr [], cache := [], netCalled := true } ∧
    fetch_data_from_api netDown [] "bogus"
      = { result := .arr [], cache := [], netCalled := false } := by
  constructor
  · exact (fetch_returns_empty_on_failure netDown [] "products").2
      "https://fakestoreapi.com/products" rfl
      (fun d h => NetResult.noConfusion h)
  · exact (fetch_returns_empty_on_failure netDown [] "bogus").1 (by decide)

/-! ## Lemmas about the orchestrator -/

/-- C8: `fetch_and_store_data` reports failure and neither normalizes
nor stores when fetch yields falsy data, otherwise stores the
normalized records and reports success; `fetch_all_data` runs the task
for each configured source in order — a failed source still contributes
its outcome message and does not stop the others — and returns the
source-to-message mapping. -/
theorem orchestrator_contract :
    (∀ (net : String → NetResult) (st : SysState) (api : String) (t : ℕ),
       truthy (fetch_data_from_api net st.cache api).result = false →
       fetch_and_store_data net st api t
         = some ("Failed to fetch data from " ++ api,
             { st with cache := (fetch_data_from_api net st.cache api).cache })) ∧
    (∀ (net : String → NetResult) (st : SysState) (api : String) (t : ℕ)
       (recs : List URec),
       truthy (fetch_data_from_api net st.cache api).result = true →
       transform_data api (fetch_data_from_api net st.cache api).result
           st.nextId t = some recs →
       fetch_and_store_data net st api t
         = some ("Processed data from " ++ api,
             { db := store_transformed_data st.db recs,
               cache := (fetch_data_from_api net st.cache api).cache,
               nextId := st.nextId + recs.length })) ∧
    (∀ (net : String → NetResult) (st : SysState) (t : ℕ)
       (m1 : String) (st1 : SysState) (m2 : String) (st2 : SysState)
       (m3 : String) (st3 : SysState),
       fetch_and_store_data net st "products" t = some (m1, st1) →
       fetch_and_store_data net st1 "users" t = some (m2, st2) →
       fetch_and_store_data net st2 "transactions" t = some (m3, st3) →
       fetch_all_data net st t
         = some ([("products", m1), ("users", m2), ("transactions", m3)],
                 st3)) := by
  refine ⟨?_, ?_, ?_⟩
  · intro net st api t h
    simp [fetch_and_store_data, h]
  · intro net st api t recs h htr
    simp [fetch_and_store_data, h, htr]
  · intro net st t m1 st1 m2 st2 m3 st3 h1 h2 h3
    simp [fetch_all_data, List.foldlM, h1, h2, h3]

/-- C8 witness: with the products endpoint down but the user and
transaction endpoints answering, the orchestrator reports failure for
products and still processes the other two sources. -/
theorem orchestrator_contract_witness :
    fetch_all_data netMixed ⟨[], [], 0⟩ 7
      = some ([("products", "Failed to fetch data from products"),
               ("users", "Processed data from users"),
               ("transactions", "Processed data from transactions")],
              ⟨[recB 0],
               [("https://randomuser.me/api/?results=20",
                 .obj [("results", .arr [])]),
                ("https://my.api.mockaroo.com/orders.json?key=e49e6840",
                 .arr [itemB])], 1⟩) := by
  have hc := orchestrator_contract
  have h1 := hc.1 netMixed ⟨[], [], 0⟩ "products" 7 (by decide)
  have h2 := hc.2.1 netMixed
    { db := [], cache := [], nextId := 0 } "users" 7 [] (by decide) (by decide)
  have h3 := hc.2.1 netMixed
    { db := [],
      cache := [("https://randomuser.me/api/?results=20",
                 .obj [("results", .arr [])])], nextId := 0 }
    "transactions" 7 [recB 0] (by decide) (transform_itemB 0)
  have hall := hc.2.2 netMixed ⟨[], [], 0⟩ 7 _ _ _ _ _ _ h1 h2 h3
  simpa using hall

end Metamorph
